import Mathlib

/-!
# Verification of the h5ncml HDF5-to-NcML metadata mapper

Shallow embedding of `h5ncml/h5ncml.py`.  The module converts the structural
metadata of an HDF5 file into an NcML XML document.  We embed:

* the datatype translator `ncml_dtype` (lines 27-85),
* the dimension-scale classifier `is_dimscale` (lines 88-100),
* the attribute serializer `do_attributes` (lines 103-131),
* the visitor callback `objinfo` (lines 134-180),
* the driver `h5toncml` (lines 183-213) together with the module-level
  global `grp_node` dictionary (line 17).

Python values appearing as HDF5 attribute values are embedded as `PyVal`;
Python exceptions as `PyErr`.  The lxml element tree is embedded as an
arena (`Glob.arena`) of nodes addressed by index, so that the aliasing
behaviour of the source (the same element object is reachable both from the
`grp_node` dictionary and as a child of its parent, and appending children
through either alias is visible through the other) is modelled exactly.
Stateful functions return the final state together with an optional
exception, mirroring the fact that a Python exception unwinds while leaving
all mutations made so far in place.
-/

namespace H5Ncml

/-- HDF5 datatype sign indicator (`h5py.h5t.SGN_2` / `h5py.h5t.SGN_NONE`). -/
inductive H5Sign where
  | sgn2
  | sgnNone
deriving DecidableEq, Repr

/-- HDF5 datatype classes, as compared against in `ncml_dtype`
(`h5py.h5t.INTEGER`, `FLOAT`, `TIME`, `STRING`, `BITFIELD`, `OPAQUE`,
`COMPOUND`, `REFERENCE`, `ENUM`, `VLEN`, `ARRAY`); `other n` stands for a
class code outside the known set, reaching the `else` branch. -/
inductive H5Class where
  | integer
  | float
  | time
  | str
  | bitfield
  | opq
  | compound
  | reference
  | enum
  | vlen
  | array
  | other (n : Nat)
deriving DecidableEq, Repr

/-- An `h5py.h5t.TypeID`: class, size in bytes, and sign indicator. -/
structure TypeID where
  cls : H5Class
  size : Nat
  sign : H5Sign
deriving DecidableEq, Repr

/-- Embedded Python values, as yielded for HDF5 attribute values:
byte strings, text strings, integers, object references, and (numpy)
arrays. -/
inductive PyVal where
  | bytes (s : String)
  | pystr (s : String)
  | int (n : Int)
  | ref (path : String)
  | arr (elems : List PyVal)
deriving Repr

/-- Embedded Python exceptions raised by the module.  `TypeError`,
`NotImplementedError`, `ValueError`, `KeyError`, `IndexError`,
`RuntimeError` and `AttributeError` each keep their message (for
`KeyError`, the offending key rendered as a string). -/
inductive PyErr where
  | typeError (msg : String)
  | notImplementedError (msg : String)
  | valueError (msg : String)
  | keyError (k : String)
  | indexError (msg : String)
  | runtimeError (msg : String)
  | attributeError (msg : String)
deriving DecidableEq, Repr

/-- Python `==` between embedded values.  Same-type comparisons compare
contents; comparisons between values of different types (in particular
`str == bytes`) are `False`. -/
def pyEq (a b : PyVal) : Bool :=
  match a, b with
  | .bytes s, .bytes t => s == t
  | .pystr s, .pystr t => s == t
  | .int m, .int n => m == n
  | .ref p, .ref q => p == q
  | _, _ => false

/-- Lookup in a literal Python dict with `Nat` keys, as used for the two
`size` tables in `ncml_dtype`. -/
def dictLookup (d : List (Nat × String)) (k : Nat) : Option String :=
  (d.find? (fun kv => kv.1 == k)).map (fun kv => kv.2)

/-- Render a type-class code the way `'%s' % type_cls` does on the h5py
integer constants (only the `other` branch ever reaches the formatting). -/
def clsCode : H5Class → String
  | .other n => toString n
  | _ => ""

/-- `ncml_dtype` (h5ncml.py lines 27-85): translate an HDF5 datatype to a
pair of NcML type name and unsigned flag, or raise. -/
def ncml_dtype (tobj : TypeID) : Except PyErr (String × Bool) :=
  match tobj.cls with
  | .integer =>
      let size := [(1, "byte"), (2, "short"), (4, "int"), (8, "long")]
      let unsigned := tobj.sign == .sgnNone
      match dictLookup size tobj.size with
      | some t => .ok (t, unsigned)
      | none => .error (.keyError (toString tobj.size))
  | .float =>
      let size := [(4, "float"), (8, "double")]
      match dictLookup size tobj.size with
      | some t => .ok (t, false)
      | none => .error (.keyError (toString tobj.size))
  | .time => .error (.typeError "H5T_TIME datatype not supported in NcML")
  | .str => .ok ("String", false)
  | .bitfield => .error (.typeError "H5T_BITFIELD datatype not supported in NcML")
  | .opq => .ok ("opaque", false)
  | .compound => .ok ("Structure", false)
  | .reference => .error (.typeError "H5T_REFERENCE datatype not supported in NcML")
  | .enum => .error (.notImplementedError "H5T_ENUM datatype in NcML not supported yet")
  | .vlen => .error (.notImplementedError "H5T_VLEN datatype in NcML not supported yet")
  | .array => .error (.typeError "H5T_ARRAY datatype not supported in NcML")
  | .other n => .error (.valueError (clsCode (.other n) ++ ": Unknown type class"))

/-- One step of the `for n, v in attrs.items()` loop in `is_dimscale`:
the pair carries (`cond1`, `cond2`). -/
def dimscaleStep (c : Bool × Bool) (nv : String × PyVal) : Bool × Bool :=
  let c1 := if nv.1 == "CLASS" && pyEq nv.2 (.bytes "DIMENSION_SCALE") then true else c.1
  let c2 := if nv.1 == "REFERENCE_LIST" then true else c.2
  (c1, c2)

/-- `is_dimscale` (h5ncml.py lines 88-100): `cond1` starts `False`,
`cond2` starts `True`; the loop can only set them to `True`; the result is
`cond1 and cond2`. -/
def is_dimscale (attrs : List (String × PyVal)) : Bool :=
  let r := attrs.foldl dimscaleStep (false, true)
  if r.1 && r.2 then true else false

/-! ## The lxml element tree and the module-level `grp_node` dictionary

lxml elements are mutable nodes; the source keeps aliases to nodes both in
the document tree and in the global `grp_node` dict, and appends children
through those aliases.  We embed the element heap as an arena: a node is
addressed by its index in `Glob.arena`, and `grp_node` maps HDF5 path
strings to node indices. -/

/-- One XML element: tag, XML attributes in creation order, and the indices
of its child elements in document order. -/
structure XNode where
  tag : String
  attribs : List (String × String)
  children : List Nat
deriving DecidableEq, Repr

/-- The process-global state of the module: the heap of all XML elements
ever created (`arena`) and the module-level `grp_node` dictionary
(h5ncml.py line 17) mapping HDF5 paths to elements. -/
structure Glob where
  arena : List XNode
  grp_node : List (String × Nat)
deriving DecidableEq, Repr

/-- The state at module import time: no elements, empty `grp_node`. -/
def initGlob : Glob := ⟨[], []⟩

/-- Python dict lookup `d[k]` / `k in d` on the `grp_node` dictionary. -/
def dictGet (d : List (String × Nat)) (k : String) : Option Nat :=
  (d.find? (fun kv => kv.1 == k)).map (fun kv => kv.2)

/-- Python dict assignment `d[k] = v`: overwrite an existing binding in
place, else append a new one. -/
def dictSet (d : List (String × Nat)) (k : String) (v : Nat) : List (String × Nat) :=
  match d with
  | [] => [(k, v)]
  | kv :: rest => if kv.1 == k then (k, v) :: rest else kv :: dictSet rest k v

/-- Create a fresh element (the `ElementMaker` calls `nc_group`, `nc_var`,
`nc_attr`, `nc_dim`, and `etree.Element` for the root): the node is added
to the arena and its index returned. -/
def newNode (g : Glob) (tag : String) (attribs : List (String × String)) : Glob × Nat :=
  ({ g with arena := g.arena ++ [⟨tag, attribs, []⟩] }, g.arena.length)

/-- `parent.append(child)` on lxml elements: mutate the parent node in the
arena, appending the child's index to its children. -/
def appendChild (g : Glob) (p c : Nat) : Glob :=
  match g.arena[p]? with
  | some nd => { g with arena := g.arena.set p { nd with children := nd.children ++ [c] } }
  | none => g

/-- `grp_node[path]`, raising `KeyError` when the path is not registered. -/
def lookupNode (g : Glob) (path : String) : Except PyErr Nat :=
  match dictGet g.grp_node path with
  | some i => .ok i
  | none => .error (.keyError path)

/-! ## Attributes of HDF5 objects and the attribute serializer -/

/-- One HDF5 attribute as the source observes it: the value yielded by
`attrs.items()`, the datatype obtained through `h5py.h5a.open(...).get_type()`,
and the dataspace shape `aid.shape`. -/
structure H5Attr where
  value : PyVal
  tid : TypeID
  shape : List Nat

/-- The view `attrs.items()` used by `is_dimscale`: names paired with
values. -/
def attrsItems (attrs : List (String × H5Attr)) : List (String × PyVal) :=
  attrs.map (fun na => (na.1, na.2.value))

/-- `attrs.get(k, dflt)`. -/
def attrsGet (attrs : List (String × H5Attr)) (k : String) (dflt : PyVal) : PyVal :=
  match attrs.find? (fun na => na.1 == k) with
  | some na => na.2.value
  | none => dflt

/-- `k in attrs`. -/
def hasAttr (attrs : List (String × H5Attr)) (k : String) : Bool :=
  (attrs.find? (fun na => na.1 == k)).isSome

/-- `np.ravel`: flatten a (possibly nested) array value to the flat list of
its elements; a scalar becomes a one-element list. -/
def npRavel : PyVal → List PyVal
  | .bytes s => [.bytes s]
  | .pystr s => [.pystr s]
  | .int n => [.int n]
  | .ref p => [.ref p]
  | .arr [] => []
  | .arr (x :: xs) => npRavel x ++ npRavel (.arr xs)

/-- `v.decode('utf-8')`: defined on byte strings; any other value lacks the
method and raises `AttributeError`. -/
def pyDecode : PyVal → Except PyErr String
  | .bytes s => .ok s
  | _ => .error (.attributeError "decode")

/-- Python `str(v)` on the scalar values reaching the non-string formatting
path (`' '.join([str(v) for v in temp])`). -/
def pyStr : PyVal → String
  | .bytes s => "b" ++ "\x27" ++ s ++ "\x27"
  | .pystr s => s
  | .int n => toString n
  | .ref p => "<HDF5 object reference " ++ p ++ ">"
  | .arr _ => "<array>"

/-- `' '.join(parts)`. -/
def joinSpace (parts : List String) : String :=
  String.intercalate " " parts

/-- Byte-string prefix test: the first `len(m)` characters of `s` equal
`m`. -/
def strStartsWith (s m : String) : Bool :=
  s.data.take m.data.length == m.data

/-- `v.startswith(m)` with a byte-string argument `m`: defined on byte
strings; a text string raises `TypeError`, anything else `AttributeError`. -/
def pyStartswith (v : PyVal) (m : String) : Except PyErr Bool :=
  match v with
  | .bytes s => .ok (strStartsWith s m)
  | .pystr _ => .error (.typeError "startswith first arg must be str or a tuple of str, not bytes")
  | _ => .error (.attributeError "startswith")

/-- The four internal bookkeeping attribute names skipped by
`do_attributes` (h5ncml.py line 105). -/
def internal_names : List String := ["CLASS", "REFERENCE_LIST", "DIMENSION_LIST", "NAME"]

/-- The value-formatting step of the `do_attributes` loop body (h5ncml.py
lines 112-123): a scalar string attribute is decoded directly; a string
array is flattened, its elements decoded, and joined with spaces; any
other type is flattened, its elements passed through `str`, and joined
with spaces. -/
def formatAttrVal (atype : String) (a : H5Attr) : Except PyErr String :=
  if atype == "String" then
    if a.shape.length == 0 then pyDecode a.value
    else do
      let temp := npRavel a.value
      let parts ← temp.mapM pyDecode
      pure (joinSpace parts)
  else
    .ok (joinSpace ((npRavel a.value).map pyStr))

/-- One iteration of the `do_attributes` loop body (h5ncml.py lines
104-131) for attribute `aname`: skip internal names; translate the
attribute's datatype; format the value; create the `<attribute>` element
(with `isUnsigned` when the type is unsigned) and append it to `elem`.
Mutations happen only after every fallible step, so the input state is
returned unchanged on an exception. -/
def do_attr_one (g : Glob) (elem : Nat) (aname : String) (a : H5Attr) :
    Glob × Option PyErr :=
  if internal_names.contains aname then (g, none)
  else
    match ncml_dtype a.tid with
    | .error e => (g, some e)
    | .ok (atype, is_unsign) =>
      match formatAttrVal atype a with
      | .error e => (g, some e)
      | .ok aval =>
        let attribs := [("name", aname), ("type", atype), ("value", aval)]
        let attribs := if is_unsign then attribs ++ [("isUnsigned", "true")] else attribs
        let p := newNode g "attribute" attribs
        (appendChild p.1 elem p.2, none)

/-- `do_attributes` (h5ncml.py lines 103-131): serialize every attribute of
an object under `elem`, in iteration order, stopping at the first
exception. -/
def do_attributes (g : Glob) (elem : Nat) :
    List (String × H5Attr) → Glob × Option PyErr
  | [] => (g, none)
  | (aname, a) :: rest =>
    match do_attr_one g elem aname a with
    | (g', none) => do_attributes g' elem rest
    | (g', some e) => (g', some e)

/-! ## HDF5 objects and the visitor callback `objinfo` -/

/-- The kind of a visited HDF5 object: `h5py.Group`, `h5py.Dataset` (with
the element datatype returned by `obj.id.get_type()`), or anything else
(reaching the final `else` branch of `objinfo`). -/
inductive H5Kind where
  | group
  | dataset (tid : TypeID)
  | otherObj

/-- A visited HDF5 object: its absolute path `obj.name`, its parent's path
`obj.parent.name`, its dataspace shape `obj.shape` and its attributes. -/
structure H5Object where
  path : String
  parentPath : String
  shape : List Nat
  attrs : List (String × H5Attr)
  kind : H5Kind

/-- `posixpath.basename`: the part of the path after the final slash. -/
def pp_basename (p : String) : String :=
  ((p.splitOn "/").getLast?).getD ""

/-- `obj.shape[0]`: the first-axis extent, raising `IndexError` on a scalar
(zero-dimensional) shape. -/
def shapeHead : List Nat → Except PyErr Nat
  | [] => .error (.indexError "tuple index out of range")
  | d :: _ => .ok d

/-- Python indexing `v[n]` on an embedded array value. -/
def pyIndex (v : PyVal) (n : Nat) : Except PyErr PyVal :=
  match v with
  | .arr xs =>
      match xs.get? n with
      | some x => .ok x
      | none => .error (.indexError "index out of range")
  | _ => .error (.typeError "object is not subscriptable")

/-- `f[r].name` for an object reference `r`: dereferencing a reference in
the file yields the object it points to, whose `.name` is its absolute
path. -/
def derefName (v : PyVal) : Except PyErr String :=
  match v with
  | .ref p => .ok p
  | _ => .error (.typeError "Accessing a group is done with bytes or str")

/-- The NAME-attribute marker tested on h5ncml.py lines 154-155. -/
def ncdim_marker : String := "This is a netCDF dimension but not a netCDF variable."

/-- The `shape` computation for a `<variable>` (h5ncml.py lines 161-169):
with a `DIMENSION_LIST` attribute, for each axis `n` dereference
`obj.attrs['DIMENSION_LIST'][n][0]` and take that dataset's absolute name;
otherwise the decimal axis lengths. -/
def datasetShape (obj : H5Object) : Except PyErr (List String) :=
  if hasAttr obj.attrs "DIMENSION_LIST" then
    (List.range obj.shape.length).mapM (fun n => do
      let dl := attrsGet obj.attrs "DIMENSION_LIST" (.arr [])
      let x ← pyIndex dl n
      let y ← pyIndex x 0
      derefName y)
  else
    .ok (obj.shape.map toString)

/-- The shared tail of `objinfo` (h5ncml.py lines 178-180): look up the
parent's element in `grp_node` (a `KeyError` leaves the freshly created
element and any `grp_node` registration in place), append `elem` under it,
then serialize the object's attributes onto `elem`. -/
def finishObj (g : Glob) (elem : Nat) (obj : H5Object) : Glob × Option PyErr :=
  match lookupNode g obj.parentPath with
  | .error e => (g, some e)
  | .ok parent => do_attributes (appendChild g parent elem) elem obj.attrs

/-- The `<variable>` part of the dataset branch of `objinfo` (h5ncml.py
lines 158-175 and the shared tail): translate the element datatype,
compute the shape, create the `<variable>` element, append the synthetic
`_Unsigned` attribute first when the type is unsigned, then append the
variable under the parent and serialize the dataset's attributes. -/
def datasetVariable (g : Glob) (obj : H5Object) (tid : TypeID) : Glob × Option PyErr :=
  match ncml_dtype tid with
  | .error e => (g, some e)
  | .ok (dset_type, is_unsign) =>
    match datasetShape obj with
    | .error e => (g, some e)
    | .ok shape =>
      let p := newNode g "variable"
        [("name", pp_basename obj.path), ("type", dset_type),
         ("shape", joinSpace shape)]
      let elem := p.2
      let g :=
        if is_unsign then
          let q := newNode p.1 "attribute" [("name", "_Unsigned"), ("value", "true")]
          appendChild q.1 elem q.2
        else p.1
      finishObj g elem obj

/-- `objinfo` (h5ncml.py lines 134-180), the visitor callback.
A group raises `RuntimeError` if its path is already in `grp_node`, else
creates and registers a `<group>` element.  A dataset classified as a
dimension scale first emits a `<dimension>` element (reading
`obj.shape[0]` unguarded) under the parent, then — if the `NAME`
attribute starts with the netCDF-dimension marker — returns without
emitting a `<variable>` or serializing attributes; otherwise it continues
with the `<variable>` path.  Any other object raises `TypeError`. -/
def objinfo (g : Glob) (obj : H5Object) : Glob × Option PyErr :=
  match obj.kind with
  | .group =>
      if (dictGet g.grp_node obj.path).isSome then
        (g, some (.runtimeError (obj.path ++ ": XML node already exists")))
      else
        let p := newNode g "group" [("name", pp_basename obj.path)]
        let g := { p.1 with grp_node := dictSet p.1.grp_node obj.path p.2 }
        finishObj g p.2 obj
  | .dataset tid =>
      if is_dimscale (attrsItems obj.attrs) then
        match shapeHead obj.shape with
        | .error e => (g, some e)
        | .ok d0 =>
          let p := newNode g "dimension"
            [("name", pp_basename obj.path), ("length", toString d0)]
          match lookupNode p.1 obj.parentPath with
          | .error e => (p.1, some e)
          | .ok parent =>
            let g2 := appendChild p.1 parent p.2
            match pyStartswith (attrsGet obj.attrs "NAME" (.bytes "")) ncdim_marker with
            | .error e => (g2, some e)
            | .ok true => (g2, none)
            | .ok false => datasetVariable g2 obj tid
      else datasetVariable g obj tid
  | .otherObj =>
      (g, some (.typeError ("Unexpected HDF5 object: " ++ obj.path)))

/-! ## The driver `h5toncml` -/

/-- An open HDF5 file: its name, the root group's attributes, and the
descendant objects in `visititems` order (parents before children). -/
structure H5File where
  fname : String
  rootAttrs : List (String × H5Attr)
  objects : List H5Object

/-- `f.visititems(objinfo)` (h5ncml.py line 210): apply the callback to
every object in traversal order; an exception unwinds, keeping the
mutations made so far. -/
def visititems (g : Glob) : List H5Object → Glob × Option PyErr
  | [] => (g, none)
  | o :: rest =>
    match objinfo g o with
    | (g', none) => visititems g' rest
    | (g', some e) => (g', some e)

/-- The `location` root attribute (h5ncml.py lines 203-205).  The source
computes `urljoin('file:', pathname2url(osp.abspath(h5fname)))`; absolute
path resolution and URL escaping are host-OS functions outside this
embedding, modelled as attaching the `file:` scheme to the name. -/
def location_url (h5fname : String) : String := "file:" ++ h5fname

/-- The outcome of one `h5toncml` call: the process-global state
afterwards, whether the `f.close()` on h5ncml.py line 211 was executed,
and either the root element of the returned document or the propagated
exception. -/
structure ConvResult where
  glob : Glob
  fileClosed : Bool
  result : Except PyErr Nat
deriving Repr

/-- Lines 209-213 of `h5toncml`: serialize the root group's attributes,
visit every object, and only then execute `f.close()` and return the
document — an exception raised while serializing the root's attributes or
during the traversal propagates before `f.close()` is reached, so on
those paths the handle stays open. -/
def convTail (g1 : Glob) (root : Nat) (attrs : List (String × H5Attr))
    (objs : List H5Object) : ConvResult :=
  match do_attributes g1 root attrs with
  | (g2, some e) => ⟨g2, false, .error e⟩
  | (g2, none) =>
    match visititems g2 objs with
    | (g3, some e) => ⟨g3, false, .error e⟩
    | (g3, none) => ⟨g3, true, .ok root⟩

/-- `h5toncml` (h5ncml.py lines 183-213): open the file, create the
`<netcdf>` root with its two attributes, overwrite `grp_node['/']` with
the new root, then run the serialization/traversal/close tail
(`convTail`). -/
def h5toncml (g : Glob) (f : H5File) : ConvResult :=
  let p := newNode g "netcdf"
    [("xsi:schemaLocation", "http://www.unidata.ucar.edu/schemas/netcdf/ncml-2.2.xsd"),
     ("location", location_url f.fname)]
  let root := p.2
  let g1 := { p.1 with grp_node := dictSet p.1.grp_node "/" root }
  convTail g1 root f.rootAttrs f.objects

/-! ## Observations on the element arena -/

/-- Number of elements with a given XML tag in the arena. -/
def countTag (g : Glob) (t : String) : Nat :=
  (g.arena.map XNode.tag).count t

/-- The `name` XML attribute of an element, as on an `<attribute>` node. -/
def attrElemName (attribs : List (String × String)) : String :=
  (((attribs.find? (fun kv => kv.1 == "name")).map (fun kv => kv.2)).getD "")

/-- A node respects the suppression rule: it is not an `<attribute>`
element, or its `name` is none of the four internal bookkeeping names. -/
def goodNode (nd : XNode) : Bool :=
  nd.tag != "attribute" || !(internal_names.contains (attrElemName nd.attribs))

/-- Every element ever created respects the suppression rule. -/
def goodGlob (g : Glob) : Bool :=
  g.arena.all goodNode

/-- One arena state extends another: every existing node keeps its index,
tag and XML attributes, and its child list is only ever appended to. -/
def ExtendsG (g g' : Glob) : Prop :=
  ∀ (i : Nat) (nd : XNode), g.arena[i]? = some nd →
    ∃ nd' : XNode, g'.arena[i]? = some nd' ∧ nd'.tag = nd.tag ∧
      nd'.attribs = nd.attribs ∧ ∃ ext, nd'.children = nd.children ++ ext

/-- `path in grp_node`. -/
def hasPath (g : Glob) (p : String) : Bool :=
  (dictGet g.grp_node p).isSome

/-! ## Concrete fixtures used by the witnesses -/

/-- A state holding just a registered root element, as `objinfo` finds it
after `grp_node['/'] = root`. -/
def exGlob0 : Glob := ⟨[⟨"netcdf", [], []⟩], [("/", 0)]⟩

/-- A scalar string attribute. -/
def exStrAttr (s : String) : H5Attr := ⟨.bytes s, ⟨.str, s.length + 1, .sgn2⟩, []⟩

/-- A dimension-scale `CLASS` attribute (byte string, as HDF5 stores it). -/
def exClassAttr : H5Attr := exStrAttr "DIMENSION_SCALE"

/-- The `NAME` attribute of a dimension-only dataset. -/
def exDimNameAttr : H5Attr :=
  exStrAttr "This is a netCDF dimension but not a netCDF variable.   lat"

/-- A stand-in `REFERENCE_LIST` attribute. -/
def exRefListAttr : H5Attr := ⟨.arr [.arr [.ref "/temp"]], ⟨.compound, 12, .sgn2⟩, [1]⟩

/-- A dimension-only dataset `lat` of shape (5,). -/
def exLat : H5Object :=
  ⟨"/lat", "/", [5],
   [("CLASS", exClassAttr), ("NAME", exDimNameAttr), ("REFERENCE_LIST", exRefListAttr)],
   .dataset ⟨.float, 4, .sgn2⟩⟩

/-- A dimension scale with a scalar (zero-dimensional) dataspace. -/
def exScalarDim : H5Object :=
  ⟨"/deg", "/", [], [("CLASS", exClassAttr)], .dataset ⟨.float, 4, .sgn2⟩⟩

/-- A dataset whose `CLASS` attribute holds the text string
`DIMENSION_SCALE` instead of the byte string. -/
def exStrClassObj : H5Object :=
  ⟨"/x", "/", [3],
   [("CLASS", ⟨.pystr "DIMENSION_SCALE", ⟨.str, 16, .sgn2⟩, []⟩)],
   .dataset ⟨.integer, 4, .sgn2⟩⟩

/-- An 8-byte unsigned integer dataset with one user attribute. -/
def exUnsignedObj : H5Object :=
  ⟨"/counts", "/", [10], [("units", exStrAttr "1")], .dataset ⟨.integer, 8, .sgnNone⟩⟩

/-- A file containing a single group `/g`. -/
def exFileGrp : H5File := ⟨"g.h5", [], [⟨"/g", "/", [], [], .group⟩]⟩

/-- A file whose only dataset has the unsupported `H5T_TIME` element
type, making the traversal fail partway. -/
def exFileTime : H5File :=
  ⟨"t.h5", [], [⟨"/t", "/", [3], [], .dataset ⟨.time, 4, .sgn2⟩⟩]⟩

/-- A small well-formed file: a root attribute, the dimension-only `lat`,
and the unsigned dataset. -/
def exFileOk : H5File :=
  ⟨"ok.h5", [("title", exStrAttr "example")], [exLat, exUnsignedObj]⟩

/-! ## Lemmas about the dimension-scale classifier -/

/-- Closed form of the `is_dimscale` loop: `cond1` ends true iff it started
true or some attribute is a `CLASS`/`DIMENSION_SCALE` pair, and `cond2`
ends true iff it started true or some attribute is named
`REFERENCE_LIST`. -/
theorem dimscale_foldl (attrs : List (String × PyVal)) (c : Bool × Bool) :
    attrs.foldl dimscaleStep c =
      (c.1 || attrs.any (fun nv => nv.1 == "CLASS" && pyEq nv.2 (.bytes "DIMENSION_SCALE")),
       c.2 || attrs.any (fun nv => nv.1 == "REFERENCE_LIST")) := by
  induction attrs generalizing c with
  | nil => simp
  | cons x xs ih =>
      rw [List.foldl_cons, ih]
      cases hc : x.1 == "CLASS" && pyEq x.2 (.bytes "DIMENSION_SCALE") <;>
        cases hr : x.1 == "REFERENCE_LIST" <;>
          simp [dimscaleStep, hc, hr, Bool.or_comm, Bool.or_assoc, Bool.or_left_comm]

/-- `pyEq` against a byte-string literal holds exactly on the equal
byte string. -/
theorem pyEq_bytes (v : PyVal) (s : String) :
    pyEq v (.bytes s) = true ↔ v = .bytes s := by
  cases v <;> simp [pyEq]

/-- Closed characterization of `is_dimscale`: true exactly on mappings
containing a `CLASS` attribute with byte-string value `DIMENSION_SCALE`. -/
theorem is_dimscale_eq_true_iff (attrs : List (String × PyVal)) :
    is_dimscale attrs = true ↔
      ("CLASS", PyVal.bytes "DIMENSION_SCALE") ∈ attrs := by
  unfold is_dimscale
  rw [dimscale_foldl]
  simp only [Bool.false_or, Bool.true_or, Bool.true_and]
  constructor
  · intro h
    have h' : attrs.any
        (fun nv => nv.1 == "CLASS" && pyEq nv.2 (.bytes "DIMENSION_SCALE")) = true := by
      by_contra hn
      simp only [Bool.not_eq_true] at hn
      rw [hn] at h
      simp at h
    rcases List.any_eq_true.mp h' with ⟨nv, hmem, hp⟩
    rcases (Bool.and_eq_true _ _).mp hp with ⟨h1, h2⟩
    have e1 : nv.1 = "CLASS" := by simpa using h1
    have e2 : nv.2 = PyVal.bytes "DIMENSION_SCALE" := (pyEq_bytes _ _).mp h2
    have : nv = ("CLASS", PyVal.bytes "DIMENSION_SCALE") := by
      cases nv; simp_all
    rwa [this] at hmem
  · intro hmem
    have h' : attrs.any
        (fun nv => nv.1 == "CLASS" && pyEq nv.2 (.bytes "DIMENSION_SCALE")) = true :=
      List.any_eq_true.mpr ⟨_, hmem, by simp [pyEq]⟩
    simp [h']


/-- Claim C1: the dimension-scale classifier returns true exactly when the
attribute mapping contains an attribute named `CLASS` whose value is the
byte string `DIMENSION_SCALE` — with no condition whatsoever on
`REFERENCE_LIST`, whose presence or absence cannot change the result
(the reference-list condition starts pre-satisfied); on a mapping with no
such `CLASS` entry it returns false. -/
theorem claim_C1_dimscale_classifier (attrs : List (String × PyVal)) :
    is_dimscale attrs = true ↔
      ("CLASS", PyVal.bytes "DIMENSION_SCALE") ∈ attrs :=
  is_dimscale_eq_true_iff attrs

/-- Witness for C1 at concrete inputs: true with `CLASS = DIMENSION_SCALE`
and no `REFERENCE_LIST`, and false without a `CLASS` entry. -/
theorem claim_C1_dimscale_classifier_wit :
    is_dimscale [("CLASS", PyVal.bytes "DIMENSION_SCALE")] = true ∧
    is_dimscale [("REFERENCE_LIST", PyVal.int 0)] ≠ true :=
  ⟨(claim_C1_dimscale_classifier _).mpr (by simp),
   fun h => by
     have := (claim_C1_dimscale_classifier
       [("REFERENCE_LIST", PyVal.int 0)]).mp h
     simp at this⟩

/-- Claim C2: the type translator realizes exactly the table of spec §4.1 —
integers of size 1/2/4/8 map to byte/short/int/long with the unsigned flag
true iff the sign indicator is `SGN_NONE`; floats of size 4/8 map to
float/double; string maps to `String`, opaque to `opaque`, compound to
`Structure` (all at any size); and every successful translation of a
non-integer class has the unsigned flag false. -/
theorem claim_C2_type_table (sg : H5Sign) (sz : Nat) :
    ncml_dtype ⟨.integer, 1, sg⟩ = .ok ("byte", sg == .sgnNone) ∧
    ncml_dtype ⟨.integer, 2, sg⟩ = .ok ("short", sg == .sgnNone) ∧
    ncml_dtype ⟨.integer, 4, sg⟩ = .ok ("int", sg == .sgnNone) ∧
    ncml_dtype ⟨.integer, 8, sg⟩ = .ok ("long", sg == .sgnNone) ∧
    ncml_dtype ⟨.float, 4, sg⟩ = .ok ("float", false) ∧
    ncml_dtype ⟨.float, 8, sg⟩ = .ok ("double", false) ∧
    ncml_dtype ⟨.str, sz, sg⟩ = .ok ("String", false) ∧
    ncml_dtype ⟨.opq, sz, sg⟩ = .ok ("opaque", false) ∧
    ncml_dtype ⟨.compound, sz, sg⟩ = .ok ("Structure", false) ∧
    (∀ (cls : H5Class) (t : String) (u : Bool), cls ≠ .integer →
       ncml_dtype ⟨cls, sz, sg⟩ = .ok (t, u) → u = false) := by
  refine ⟨rfl, rfl, rfl, rfl, rfl, rfl, rfl, rfl, rfl, ?_⟩
  intro cls t u hcls hok
  cases cls <;> simp_all [ncml_dtype]
  case float =>
    rcases hd : dictLookup [(4, "float"), (8, "double")] sz with _ | s <;>
      rw [hd] at hok <;> simp_all

/-- Witness for C2 at concrete inputs: an 8-byte unsigned integer maps to
`long`/unsigned, and a successful non-integer translation (4-byte float)
has the unsigned flag false. -/
theorem claim_C2_type_table_wit :
    ncml_dtype ⟨.integer, 8, .sgnNone⟩ = .ok ("long", true) ∧ (false : Bool) = false :=
  ⟨(claim_C2_type_table .sgnNone 0).2.2.2.1,
   (claim_C2_type_table .sgn2 4).2.2.2.2.2.2.2.2.2 .float "float" false
     (by simp) rfl⟩

/-- Claim C6: each unmapped datatype class fails with its own specific
error — `TypeError` with a message naming the class for time, bitfield,
reference and array (the intentionally unsupported ones); a
`NotImplementedError` for enum and variable-length (mapping deferred); a
`ValueError` naming the class code for anything outside the known set;
and a `KeyError` (lookup error) for an integer or float size outside the
table domains {1,2,4,8} and {4,8}. -/
theorem claim_C6_type_errors (sz : Nat) (sg : H5Sign) (n : Nat) :
    ncml_dtype ⟨.time, sz, sg⟩ =
      .error (.typeError "H5T_TIME datatype not supported in NcML") ∧
    ncml_dtype ⟨.bitfield, sz, sg⟩ =
      .error (.typeError "H5T_BITFIELD datatype not supported in NcML") ∧
    ncml_dtype ⟨.reference, sz, sg⟩ =
      .error (.typeError "H5T_REFERENCE datatype not supported in NcML") ∧
    ncml_dtype ⟨.array, sz, sg⟩ =
      .error (.typeError "H5T_ARRAY datatype not supported in NcML") ∧
    ncml_dtype ⟨.enum, sz, sg⟩ =
      .error (.notImplementedError "H5T_ENUM datatype in NcML not supported yet") ∧
    ncml_dtype ⟨.vlen, sz, sg⟩ =
      .error (.notImplementedError "H5T_VLEN datatype in NcML not supported yet") ∧
    ncml_dtype ⟨.other n, sz, sg⟩ =
      .error (.valueError (toString n ++ ": Unknown type class")) ∧
    (sz ∉ ([1, 2, 4, 8] : List Nat) →
      ncml_dtype ⟨.integer, sz, sg⟩ = .error (.keyError (toString sz))) ∧
    (sz ∉ ([4, 8] : List Nat) →
      ncml_dtype ⟨.float, sz, sg⟩ = .error (.keyError (toString sz))) := by
  refine ⟨rfl, rfl, rfl, rfl, rfl, rfl, rfl, ?_, ?_⟩
  · intro h
    simp only [List.mem_cons, List.not_mem_nil, or_false, not_or] at h
    obtain ⟨h1, h2, h4, h8⟩ := h
    have e1 : (1 == sz) = false := by simp; omega
    have e2 : (2 == sz) = false := by simp; omega
    have e4 : (4 == sz) = false := by simp; omega
    have e8 : (8 == sz) = false := by simp; omega
    simp [ncml_dtype, dictLookup, List.find?, e1, e2, e4, e8]
  · intro h
    simp only [List.mem_cons, List.not_mem_nil, or_false, not_or] at h
    obtain ⟨h4, h8⟩ := h
    have e4 : (4 == sz) = false := by simp; omega
    have e8 : (8 == sz) = false := by simp; omega
    simp [ncml_dtype, dictLookup, List.find?, e4, e8]

/-- Witness for C6 at concrete inputs: size 3 is outside both lookup
tables, so a 3-byte integer and a 3-byte float each fail with the
`KeyError` lookup error. -/
theorem claim_C6_type_errors_wit :
    ncml_dtype ⟨.integer, 3, .sgn2⟩ = .error (.keyError "3") ∧
    ncml_dtype ⟨.float, 3, .sgn2⟩ = .error (.keyError "3") :=
  ⟨(claim_C6_type_errors 3 .sgn2 0).2.2.2.2.2.2.2.1 (by simp),
   (claim_C6_type_errors 3 .sgn2 0).2.2.2.2.2.2.2.2 (by simp)⟩

/-! ## Basic lemmas on the arena and the `grp_node` dictionary -/

theorem list_set_self {α : Type} (l : List α) (n : Nat) (a : α)
    (h : l[n]? = some a) : l.set n a = l := by
  induction l generalizing n with
  | nil => simp at h
  | cons x xs ih =>
      cases n with
      | zero => simp at h; simp [List.set, h]
      | succ m => simp at h; simp [List.set, ih m h]

theorem dictGet_cons (kv : String × Nat) (l : List (String × Nat)) (k' : String) :
    dictGet (kv :: l) k' = if kv.1 == k' then some kv.2 else dictGet l k' := by
  cases h : kv.1 == k' <;> simp [dictGet, List.find?, h]

theorem dictGet_dictSet (d : List (String × Nat)) (k : String) (v : Nat)
    (k' : String) :
    dictGet (dictSet d k v) k' = if k' = k then some v else dictGet d k' := by
  induction d with
  | nil =>
      by_cases h : k' = k
      · subst h; simp [dictSet, dictGet, List.find?]
      · have hb : (k == k') = false := by
          simp only [beq_eq_false_iff_ne, ne_eq]
          exact fun he => h he.symm
        simp [dictSet, dictGet, List.find?, hb, h]
  | cons kv rest ih =>
      by_cases hk : kv.1 = k
      · have hb : (kv.1 == k) = true := by simp [hk]
        simp only [dictSet, hb, if_true]
        by_cases h : k' = k
        · subst h; simp [dictGet_cons]
        · have hb2 : (k == k') = false := by
            simp only [beq_eq_false_iff_ne, ne_eq]
            exact fun he => h he.symm
          have hb3 : (kv.1 == k') = false := by
            simp only [beq_eq_false_iff_ne, ne_eq, hk]
            exact fun he => h he.symm
          rw [dictGet_cons, dictGet_cons, hb2, hb3, if_neg h]
          simp
      · have hb : (kv.1 == k) = false := by
          simp only [beq_eq_false_iff_ne, ne_eq]
          exact hk
        simp only [dictSet, hb, Bool.false_eq_true, if_false]
        rw [dictGet_cons, dictGet_cons]
        cases hb2 : kv.1 == k' with
        | true =>
            have h2 : kv.1 = k' := by simpa using hb2
            have hne : ¬ k' = k := fun he => hk (by rw [h2, he])
            simp [hne]
        | false => simp [ih]

theorem grp_node_newNode (g : Glob) (t : String) (a : List (String × String)) :
    (newNode g t a).1.grp_node = g.grp_node := rfl

theorem grp_node_appendChild (g : Glob) (p c : Nat) :
    (appendChild g p c).grp_node = g.grp_node := by
  unfold appendChild
  cases g.arena[p]? <;> rfl

theorem arena_appendChild_tags (g : Glob) (p c : Nat) :
    (appendChild g p c).arena.map XNode.tag = g.arena.map XNode.tag := by
  unfold appendChild
  cases h : g.arena[p]? with
  | none => rfl
  | some nd =>
      simp only [List.map_set]
      exact list_set_self _ _ _ (by simp [List.getElem?_map, h])

theorem arena_appendChild_attribs (g : Glob) (p c : Nat) :
    (appendChild g p c).arena.map XNode.attribs = g.arena.map XNode.attribs := by
  unfold appendChild
  cases h : g.arena[p]? with
  | none => rfl
  | some nd =>
      simp only [List.map_set]
      exact list_set_self _ _ _ (by simp [List.getElem?_map, h])

theorem countTag_appendChild (g : Glob) (p c : Nat) (t : String) :
    countTag (appendChild g p c) t = countTag g t := by
  unfold countTag
  rw [arena_appendChild_tags]

theorem countTag_newNode (g : Glob) (t0 : String) (a : List (String × String))
    (t : String) :
    countTag (newNode g t0 a).1 t = countTag g t + (if t0 = t then 1 else 0) := by
  unfold countTag newNode
  by_cases h : t0 = t <;>
    simp [List.count_append, List.count_singleton, h, List.count_cons, beq_iff_eq]

/-! ## Preservation lemmas for the attribute serializer -/

theorem grp_node_do_attr_one (g : Glob) (e : Nat) (n : String) (a : H5Attr) :
    (do_attr_one g e n a).1.grp_node = g.grp_node := by
  unfold do_attr_one
  split
  · rfl
  · split
    · rfl
    · split
      · rfl
      · simp only []
        rw [grp_node_appendChild, grp_node_newNode]

theorem grp_node_do_attributes (g : Glob) (e : Nat) (l : List (String × H5Attr)) :
    (do_attributes g e l).1.grp_node = g.grp_node := by
  induction l generalizing g with
  | nil => rfl
  | cons na rest ih =>
      obtain ⟨n, a⟩ := na
      simp only [do_attributes]
      cases h : do_attr_one g e n a with
      | mk g' r =>
          have hg : g'.grp_node = g.grp_node := by
            have := grp_node_do_attr_one g e n a
            rw [h] at this
            exact this
          cases r with
          | none => simp only []; rw [ih g', hg]
          | some err => simpa using hg

theorem countTag_do_attr_one (g : Glob) (e : Nat) (n : String) (a : H5Attr)
    (t : String) (ht : t ≠ "attribute") :
    countTag (do_attr_one g e n a).1 t = countTag g t := by
  unfold do_attr_one
  split
  · rfl
  · split
    · rfl
    · split
      · rfl
      · simp only []
        rw [countTag_appendChild, countTag_newNode,
          if_neg (fun he => ht he.symm)]
        simp

theorem countTag_do_attributes (g : Glob) (e : Nat) (l : List (String × H5Attr))
    (t : String) (ht : t ≠ "attribute") :
    countTag (do_attributes g e l).1 t = countTag g t := by
  induction l generalizing g with
  | nil => rfl
  | cons na rest ih =>
      obtain ⟨n, a⟩ := na
      simp only [do_attributes]
      cases h : do_attr_one g e n a with
      | mk g' r =>
          have hg : countTag g' t = countTag g t := by
            have := countTag_do_attr_one g e n a t ht
            rw [h] at this
            exact this
          cases r with
          | none => simp only []; rw [ih g', hg]
          | some err => simpa using hg

theorem snd_do_attr_one (g g0 : Glob) (e e0 : Nat) (n : String) (a : H5Attr) :
    (do_attr_one g e n a).2 = (do_attr_one g0 e0 n a).2 := by
  unfold do_attr_one
  by_cases hc : internal_names.contains n
  · simp only [hc]; simp
  · simp only [hc, Bool.false_eq_true, if_false]
    cases hd : ncml_dtype a.tid with
    | error err => simp
    | ok pr =>
        obtain ⟨atype, is_unsign⟩ := pr
        simp only []
        cases hv : formatAttrVal atype a with
        | error err => simp
        | ok aval => simp

theorem snd_do_attributes (g g0 : Glob) (e e0 : Nat)
    (l : List (String × H5Attr)) :
    (do_attributes g e l).2 = (do_attributes g0 e0 l).2 := by
  induction l generalizing g g0 with
  | nil => rfl
  | cons na rest ih =>
      obtain ⟨n, a⟩ := na
      simp only [do_attributes]
      have hs := snd_do_attr_one g g0 e e0 n a
      cases h : do_attr_one g e n a with
      | mk g1 r =>
          cases h0 : do_attr_one g0 e0 n a with
          | mk g2 r2 =>
              rw [h, h0] at hs
              simp only [] at hs
              subst hs
              cases r with
              | none => simpa using ih g1 g2
              | some err => simp

/-! ## Preservation of the attribute-name suppression invariant -/

theorem goodGlob_appendChild (g : Glob) (p c : Nat) (h : goodGlob g = true) :
    goodGlob (appendChild g p c) = true := by
  unfold appendChild
  cases hp : g.arena[p]? with
  | none => exact h
  | some nd =>
      unfold goodGlob at h ⊢
      rw [List.all_eq_true] at h ⊢
      intro x hx
      rcases List.mem_or_eq_of_mem_set hx with hx' | hx'
      · exact h x hx'
      · subst hx'
        have hnd : goodNode nd = true := h nd (List.getElem?_mem hp)
        simpa [goodNode] using hnd

theorem goodGlob_newNode (g : Glob) (t : String) (a : List (String × String))
    (h : goodGlob g = true) (hn : goodNode ⟨t, a, []⟩ = true) :
    goodGlob (newNode g t a).1 = true := by
  unfold goodGlob at h ⊢
  unfold newNode
  rw [List.all_eq_true] at h ⊢
  intro x hx
  rcases List.mem_append.mp hx with hx' | hx'
  · exact h x hx'
  · rw [List.mem_singleton] at hx'
    subst hx'
    exact hn

theorem goodGlob_do_attr_one (g : Glob) (e : Nat) (n : String) (a : H5Attr)
    (h : goodGlob g = true) :
    goodGlob (do_attr_one g e n a).1 = true := by
  unfold do_attr_one
  by_cases hc : internal_names.contains n
  · simp only [hc]; simpa
  · simp only [hc, Bool.false_eq_true, if_false]
    cases hd : ncml_dtype a.tid with
    | error err => exact h
    | ok pr =>
        obtain ⟨atype, is_unsign⟩ := pr
        simp only []
        cases hv : formatAttrVal atype a with
        | error err => exact h
        | ok aval =>
            simp only []
            apply goodGlob_appendChild
            apply goodGlob_newNode _ _ _ h
            have hm : n ∉ internal_names := by
              intro hmem
              exact hc (by simpa using hmem)
            cases is_unsign <;>
              simp [goodNode, attrElemName, List.find?, hm]

theorem goodGlob_do_attributes (g : Glob) (e : Nat)
    (l : List (String × H5Attr)) (h : goodGlob g = true) :
    goodGlob (do_attributes g e l).1 = true := by
  induction l generalizing g with
  | nil => exact h
  | cons na rest ih =>
      obtain ⟨n, a⟩ := na
      simp only [do_attributes]
      cases hstep : do_attr_one g e n a with
      | mk g' r =>
          have hg : goodGlob g' = true := by
            have := goodGlob_do_attr_one g e n a h
            rw [hstep] at this
            exact this
          cases r with
          | none => simpa using ih g' hg
          | some err => simpa using hg

/-! ## Arena extension lemmas -/

theorem extendsG_refl (g : Glob) : ExtendsG g g := by
  intro i nd h
  exact ⟨nd, h, rfl, rfl, [], by simp⟩

theorem extendsG_trans {g1 g2 g3 : Glob}
    (h12 : ExtendsG g1 g2) (h23 : ExtendsG g2 g3) : ExtendsG g1 g3 := by
  intro i nd h
  obtain ⟨nd2, h2, ht2, ha2, ext2, hc2⟩ := h12 i nd h
  obtain ⟨nd3, h3, ht3, ha3, ext3, hc3⟩ := h23 i nd2 h2
  exact ⟨nd3, h3, by rw [ht3, ht2], by rw [ha3, ha2],
    ext2 ++ ext3, by rw [hc3, hc2, List.append_assoc]⟩

theorem extendsG_newNode (g : Glob) (t : String) (a : List (String × String)) :
    ExtendsG g (newNode g t a).1 := by
  intro i nd h
  have hi : i < g.arena.length := by
    by_contra hn
    rw [List.getElem?_eq_none (Nat.le_of_not_lt hn)] at h
    exact Option.noConfusion h
  refine ⟨nd, ?_, rfl, rfl, [], by simp⟩
  unfold newNode
  simpa [List.getElem?_append_left hi] using h

theorem extendsG_appendChild (g : Glob) (p c : Nat) :
    ExtendsG g (appendChild g p c) := by
  intro i nd h
  unfold appendChild
  cases hp : g.arena[p]? with
  | none => exact ⟨nd, h, rfl, rfl, [], by simp⟩
  | some nd0 =>
      by_cases hip : i = p
      · subst hip
        have : nd0 = nd := by rw [hp] at h; exact Option.some.inj h
        subst this
        refine ⟨{ nd0 with children := nd0.children ++ [c] }, ?_, rfl, rfl, [c], rfl⟩
        have hi : i < g.arena.length := by
          by_contra hn
          rw [List.getElem?_eq_none (Nat.le_of_not_lt hn)] at h
          exact Option.noConfusion h
        simp [List.getElem?_set_self', List.getElem?_eq_getElem hi]
      · exact ⟨nd, by simpa [List.getElem?_set_ne (fun he => hip he.symm)] using h,
          rfl, rfl, [], by simp⟩

theorem extendsG_grpSet (g : Glob) (d : List (String × Nat)) :
    ExtendsG g { g with grp_node := d } := extendsG_refl _

theorem extendsG_do_attr_one (g : Glob) (e : Nat) (n : String) (a : H5Attr) :
    ExtendsG g (do_attr_one g e n a).1 := by
  unfold do_attr_one
  by_cases hc : internal_names.contains n
  · simp only [hc]; simpa using extendsG_refl g
  · simp only [hc, Bool.false_eq_true, if_false]
    cases hd : ncml_dtype a.tid with
    | error err => exact extendsG_refl g
    | ok pr =>
        obtain ⟨atype, is_unsign⟩ := pr
        simp only []
        cases hv : formatAttrVal atype a with
        | error err => exact extendsG_refl g
        | ok aval =>
            simp only []
            exact extendsG_trans (extendsG_newNode g _ _) (extendsG_appendChild _ _ _)

theorem extendsG_do_attributes (g : Glob) (e : Nat)
    (l : List (String × H5Attr)) :
    ExtendsG g (do_attributes g e l).1 := by
  induction l generalizing g with
  | nil => exact extendsG_refl g
  | cons na rest ih =>
      obtain ⟨n, a⟩ := na
      simp only [do_attributes]
      cases hstep : do_attr_one g e n a with
      | mk g' r =>
          have hg : ExtendsG g g' := by
            have := extendsG_do_attr_one g e n a
            rw [hstep] at this
            exact this
          cases r with
          | none => simpa using extendsG_trans hg (ih g')
          | some err => simpa using hg

theorem extendsG_finishObj (g : Glob) (e : Nat) (obj : H5Object) :
    ExtendsG g (finishObj g e obj).1 := by
  unfold finishObj
  cases lookupNode g obj.parentPath with
  | error err => exact extendsG_refl g
  | ok parent =>
      exact extendsG_trans (extendsG_appendChild g parent e)
        (extendsG_do_attributes _ e obj.attrs)

/-! ## Walker-level preservation lemmas -/

theorem grp_node_finishObj (g : Glob) (e : Nat) (obj : H5Object) :
    (finishObj g e obj).1.grp_node = g.grp_node := by
  unfold finishObj
  cases lookupNode g obj.parentPath with
  | error err => rfl
  | ok parent =>
      simp only []
      rw [grp_node_do_attributes, grp_node_appendChild]

theorem grp_node_datasetVariable (g : Glob) (obj : H5Object) (tid : TypeID) :
    (datasetVariable g obj tid).1.grp_node = g.grp_node := by
  unfold datasetVariable
  cases ncml_dtype tid with
  | error err => rfl
  | ok pr =>
      obtain ⟨dset_type, is_unsign⟩ := pr
      simp only []
      cases datasetShape obj with
      | error err => rfl
      | ok shape =>
          simp only []
          cases is_unsign <;> simp only [Bool.false_eq_true, if_false, if_true] <;>
            rw [grp_node_finishObj] <;>
            first
              | rw [grp_node_newNode]
              | rw [grp_node_appendChild, grp_node_newNode, grp_node_newNode]

theorem countTag_finishObj (g : Glob) (e : Nat) (obj : H5Object)
    (t : String) (ht : t ≠ "attribute") :
    countTag (finishObj g e obj).1 t = countTag g t := by
  unfold finishObj
  cases lookupNode g obj.parentPath with
  | error err => rfl
  | ok parent =>
      simp only []
      rw [countTag_do_attributes _ _ _ _ ht, countTag_appendChild]

theorem countTag_datasetVariable (g : Glob) (obj : H5Object) (tid : TypeID)
    (t : String) (ht : t ≠ "attribute") (hv : t ≠ "variable") :
    countTag (datasetVariable g obj tid).1 t = countTag g t := by
  unfold datasetVariable
  cases ncml_dtype tid with
  | error err => rfl
  | ok pr =>
      obtain ⟨dset_type, is_unsign⟩ := pr
      simp only []
      cases datasetShape obj with
      | error err => rfl
      | ok shape =>
          simp only []
          cases is_unsign <;> simp only [Bool.false_eq_true, if_false, if_true] <;>
            rw [countTag_finishObj _ _ _ _ ht]
          · rw [countTag_newNode, if_neg (fun he => hv he.symm)]
            simp
          · rw [countTag_appendChild, countTag_newNode,
              countTag_newNode, if_neg (fun he => hv he.symm),
              if_neg (fun he => ht he.symm)]
            simp

theorem goodGlob_finishObj (g : Glob) (e : Nat) (obj : H5Object)
    (h : goodGlob g = true) :
    goodGlob (finishObj g e obj).1 = true := by
  unfold finishObj
  cases lookupNode g obj.parentPath with
  | error err => exact h
  | ok parent =>
      simp only []
      exact goodGlob_do_attributes _ _ _ (goodGlob_appendChild _ _ _ h)

theorem goodGlob_datasetVariable (g : Glob) (obj : H5Object) (tid : TypeID)
    (h : goodGlob g = true) :
    goodGlob (datasetVariable g obj tid).1 = true := by
  unfold datasetVariable
  cases ncml_dtype tid with
  | error err => exact h
  | ok pr =>
      obtain ⟨dset_type, is_unsign⟩ := pr
      simp only []
      cases datasetShape obj with
      | error err => exact h
      | ok shape =>
          simp only []
          cases is_unsign <;> simp only [Bool.false_eq_true, if_false, if_true] <;>
            apply goodGlob_finishObj
          · exact goodGlob_newNode _ _ _ h (by simp [goodNode])
          · apply goodGlob_appendChild
            apply goodGlob_newNode _ _ _
              (goodGlob_newNode _ _ _ h (by simp [goodNode]))
            simp [goodNode, attrElemName, List.find?, internal_names]

theorem goodGlob_objinfo (g : Glob) (obj : H5Object)
    (h : goodGlob g = true) :
    goodGlob (objinfo g obj).1 = true := by
  unfold objinfo
  cases obj.kind with
  | group =>
      by_cases hreg : (dictGet g.grp_node obj.path).isSome
      · simp [hreg, h]
      · simp only [hreg, Bool.false_eq_true, if_false]
        apply goodGlob_finishObj
        simpa using goodGlob_newNode _ _ _ h (by simp [goodNode])
  | dataset tid =>
      simp only []
      by_cases hds : is_dimscale (attrsItems obj.attrs)
      · simp only [hds, if_true]
        cases shapeHead obj.shape with
        | error err => exact h
        | ok d0 =>
            simp only []
            cases lookupNode (newNode g "dimension"
                [("name", pp_basename obj.path), ("length", toString d0)]).1
                obj.parentPath with
            | error err =>
                simpa using goodGlob_newNode _ _ _ h (by simp [goodNode])
            | ok parent =>
                simp only []
                have hg2 : goodGlob (appendChild (newNode g "dimension"
                    [("name", pp_basename obj.path), ("length", toString d0)]).1
                    parent (newNode g "dimension"
                    [("name", pp_basename obj.path), ("length", toString d0)]).2) = true := by
                  apply goodGlob_appendChild
                  exact goodGlob_newNode _ _ _ h (by simp [goodNode])
                cases pyStartswith (attrsGet obj.attrs "NAME" (.bytes "")) ncdim_marker with
                | error err => exact hg2
                | ok b =>
                    cases b with
                    | true => exact hg2
                    | false => exact goodGlob_datasetVariable _ _ _ hg2
      · simp only [hds, Bool.false_eq_true, if_false]
        exact goodGlob_datasetVariable _ _ _ h
  | otherObj => exact h

theorem goodGlob_visititems (g : Glob) (objs : List H5Object)
    (h : goodGlob g = true) :
    goodGlob (visititems g objs).1 = true := by
  induction objs generalizing g with
  | nil => exact h
  | cons o rest ih =>
      simp only [visititems]
      cases hstep : objinfo g o with
      | mk g' r =>
          have hg : goodGlob g' = true := by
            have := goodGlob_objinfo g o h
            rw [hstep] at this
            exact this
          cases r with
          | none => simpa using ih g' hg
          | some err => simpa using hg

/-! ## `grp_node` registration lemmas for the duplicate-group behaviour -/

theorem hasPath_dictSet (g : Glob) (k : String) (v : Nat) (p : String)
    (h : hasPath g p = true) :
    hasPath { g with grp_node := dictSet g.grp_node k v } p = true := by
  unfold hasPath at h ⊢
  simp only []
  rw [dictGet_dictSet]
  by_cases hp : p = k <;> simp [hp, h]

theorem hasPath_objinfo (g : Glob) (obj : H5Object) (p : String)
    (h : hasPath g p = true) :
    hasPath (objinfo g obj).1 p = true := by
  unfold objinfo
  cases obj.kind with
  | group =>
      by_cases hreg : (dictGet g.grp_node obj.path).isSome
      · simpa [hreg] using h
      · simp only [hreg, Bool.false_eq_true, if_false]
        unfold hasPath
        rw [grp_node_finishObj]
        simp only [grp_node_newNode]
        have := hasPath_dictSet (newNode g "group"
          [("name", pp_basename obj.path)]).1 obj.path
          (newNode g "group" [("name", pp_basename obj.path)]).2 p
          (by unfold hasPath; simpa [grp_node_newNode] using h)
        unfold hasPath at this
        simpa using this
  | dataset tid =>
      simp only []
      by_cases hds : is_dimscale (attrsItems obj.attrs)
      · simp only [hds, if_true]
        cases shapeHead obj.shape with
        | error err => exact h
        | ok d0 =>
            simp only []
            cases lookupNode (newNode g "dimension"
                [("name", pp_basename obj.path), ("length", toString d0)]).1
                obj.parentPath with
            | error err =>
                unfold hasPath
                simpa [grp_node_newNode] using h
            | ok parent =>
                simp only []
                have hg2 : hasPath (appendChild (newNode g "dimension"
                    [("name", pp_basename obj.path), ("length", toString d0)]).1
                    parent (newNode g "dimension"
                    [("name", pp_basename obj.path), ("length", toString d0)]).2) p = true := by
                  unfold hasPath
                  rw [grp_node_appendChild]
                  simpa [grp_node_newNode] using h
                cases pyStartswith (attrsGet obj.attrs "NAME" (.bytes "")) ncdim_marker with
                | error err => exact hg2
                | ok b =>
                    cases b with
                    | true => exact hg2
                    | false =>
                        unfold hasPath
                        rw [grp_node_datasetVariable]
                        exact hg2
      · simp only [hds, Bool.false_eq_true, if_false]
        unfold hasPath
        rw [grp_node_datasetVariable]
        exact h
  | otherObj => exact h

theorem hasPath_visititems (g : Glob) (objs : List H5Object) (p : String)
    (h : hasPath g p = true) :
    hasPath (visititems g objs).1 p = true := by
  induction objs generalizing g with
  | nil => exact h
  | cons o rest ih =>
      simp only [visititems]
      cases hstep : objinfo g o with
      | mk g' r =>
          have hg : hasPath g' p = true := by
            have := hasPath_objinfo g o p h
            rw [hstep] at this
            exact this
          cases r with
          | none => simpa using ih g' hg
          | some err => simpa using hg

theorem objinfo_group_registers (g g' : Glob) (obj : H5Object)
    (hk : obj.kind = .group) (hrun : objinfo g obj = (g', none)) :
    hasPath g' obj.path = true := by
  unfold objinfo at hrun
  rw [hk] at hrun
  by_cases hreg : (dictGet g.grp_node obj.path).isSome
  · simp [hreg] at hrun
  · simp only [hreg, Bool.false_eq_true, if_false] at hrun
    have hgrp : g'.grp_node =
        (dictSet g.grp_node obj.path (newNode g "group"
          [("name", pp_basename obj.path)]).2) := by
      have hfin := grp_node_finishObj
        { (newNode g "group" [("name", pp_basename obj.path)]).1 with
          grp_node := dictSet (newNode g "group"
            [("name", pp_basename obj.path)]).1.grp_node obj.path
            (newNode g "group" [("name", pp_basename obj.path)]).2 }
        (newNode g "group" [("name", pp_basename obj.path)]).2 obj
      rw [hrun] at hfin
      simpa [grp_node_newNode] using hfin
    unfold hasPath
    rw [hgrp, dictGet_dictSet]
    simp

theorem objinfo_dup_group_fails (g : Glob) (obj : H5Object)
    (hk : obj.kind = .group) (hp : hasPath g obj.path = true) :
    objinfo g obj =
      (g, some (.runtimeError (obj.path ++ ": XML node already exists"))) := by
  unfold objinfo
  rw [hk]
  unfold hasPath at hp
  simp [hp]

theorem visititems_dup_group_fails (objs : List H5Object) (g : Glob)
    (obj : H5Object) (hmem : obj ∈ objs) (hk : obj.kind = .group)
    (hp : hasPath g obj.path = true) :
    ∃ e, (visititems g objs).2 = some e := by
  induction objs generalizing g with
  | nil => simp at hmem
  | cons o rest ih =>
      rcases List.mem_cons.mp hmem with ho | ho
      · subst ho
        rw [visititems, objinfo_dup_group_fails g obj hk hp]
        exact ⟨_, rfl⟩
      · rw [visititems]
        cases hstep : objinfo g o with
        | mk g' r =>
            cases r with
            | some err => exact ⟨err, rfl⟩
            | none =>
                have hg : hasPath g' obj.path = true := by
                  have := hasPath_objinfo g o obj.path hp
                  rw [hstep] at this
                  exact this
                simpa using ih g' ho hg

theorem visititems_group_paths (objs : List H5Object) (g g' : Glob)
    (hrun : visititems g objs = (g', none)) (obj : H5Object)
    (hmem : obj ∈ objs) (hk : obj.kind = .group) :
    hasPath g' obj.path = true := by
  induction objs generalizing g with
  | nil => simp at hmem
  | cons o rest ih =>
      rw [visititems] at hrun
      cases hstep : objinfo g o with
      | mk g1 r =>
          rw [hstep] at hrun
          cases r with
          | some err => simp at hrun
          | none =>
              simp only [] at hrun
              rcases List.mem_cons.mp hmem with ho | ho
              · subst ho
                have hreg := objinfo_group_registers g g1 obj hk hstep
                have := hasPath_visititems g1 rest obj.path hreg
                rw [hrun] at this
                exact this
              · exact ih g1 hrun ho

/-! ## Claims about the tree walker -/

/-- Claim C9: a dataset classified as a dimension scale has its first-axis
extent read with no guard, so on a zero-dimensional (scalar) shape the
visitor raises `IndexError` — the state is returned unchanged (no
`<dimension>` element was produced) and the conversion aborts. -/
theorem claim_C9_scalar_dimscale (g : Glob) (obj : H5Object) (tid : TypeID)
    (hk : obj.kind = .dataset tid)
    (hds : is_dimscale (attrsItems obj.attrs) = true)
    (hsh : obj.shape = []) :
    objinfo g obj = (g, some (.indexError "tuple index out of range")) := by
  unfold objinfo
  rw [hk]
  simp [hds, hsh, shapeHead]

/-- Witness for C9: the scalar dimension scale `deg` aborts the visit with
`IndexError` and leaves the state untouched. -/
theorem claim_C9_scalar_dimscale_wit :
    objinfo exGlob0 exScalarDim =
      (exGlob0, some (.indexError "tuple index out of range")) :=
  claim_C9_scalar_dimscale exGlob0 exScalarDim ⟨.float, 4, .sgn2⟩ rfl rfl rfl

/-- Claim C5: a dimension-scale dataset whose `NAME` attribute starts with
the netCDF-dimension marker emits exactly one `<dimension>` element named
by the path's basename with the first-axis extent as its length, appended
under the parent group's node, and processing stops there: the state
gains no `<variable>` element and no `<attribute>` element. -/
theorem claim_C5_dimension_only (g : Glob) (obj : H5Object) (tid : TypeID)
    (d : Nat) (ds : List Nat) (par : Nat)
    (hk : obj.kind = .dataset tid)
    (hds : is_dimscale (attrsItems obj.attrs) = true)
    (hsh : obj.shape = d :: ds)
    (hp : dictGet g.grp_node obj.parentPath = some par)
    (hm : pyStartswith (attrsGet obj.attrs "NAME" (.bytes "")) ncdim_marker = .ok true) :
    objinfo g obj =
      (appendChild (newNode g "dimension"
          [("name", pp_basename obj.path), ("length", toString d)]).1 par
        (newNode g "dimension"
          [("name", pp_basename obj.path), ("length", toString d)]).2, none) ∧
    countTag (objinfo g obj).1 "variable" = countTag g "variable" ∧
    countTag (objinfo g obj).1 "attribute" = countTag g "attribute" := by
  have hl : lookupNode (newNode g "dimension"
      [("name", pp_basename obj.path), ("length", toString d)]).1
      obj.parentPath = .ok par := by
    unfold lookupNode
    rw [grp_node_newNode, hp]
  have hrun : objinfo g obj =
      (appendChild (newNode g "dimension"
          [("name", pp_basename obj.path), ("length", toString d)]).1 par
        (newNode g "dimension"
          [("name", pp_basename obj.path), ("length", toString d)]).2, none) := by
    unfold objinfo
    rw [hk]
    simp only [hds, if_true, hsh, shapeHead, hl, hm]
  refine ⟨hrun, ?_, ?_⟩ <;> rw [hrun] <;> simp only [] <;>
    rw [countTag_appendChild, countTag_newNode] <;> simp

set_option maxRecDepth 100000 in
/-- Witness for C5: visiting the dimension-only dataset `lat` of shape (5,)
succeeds, and the numbers of `<variable>` and `<attribute>` elements do
not change. -/
theorem claim_C5_dimension_only_wit :
    (objinfo exGlob0 exLat).2 = none ∧
    countTag (objinfo exGlob0 exLat).1 "variable" = countTag exGlob0 "variable" ∧
    countTag (objinfo exGlob0 exLat).1 "attribute" = countTag exGlob0 "attribute" := by
  have h := claim_C5_dimension_only exGlob0 exLat ⟨.float, 4, .sgn2⟩ 5 [] 0
    rfl rfl rfl rfl (by rfl)
  exact ⟨by rw [h.1], h.2.1, h.2.2⟩

/-- Claim C10: the classifier compares the `CLASS` value for byte-string
equality only, so a dataset whose `CLASS` attribute values are all
non-byte-string (for example the text string `DIMENSION_SCALE`) is never
classified as a dimension scale: the visitor takes the `<variable>` path
directly and the number of `<dimension>` elements never changes. -/
theorem claim_C10_text_class_not_dimscale (g : Glob) (obj : H5Object)
    (tid : TypeID) (hk : obj.kind = .dataset tid)
    (hcls : ∀ v, ("CLASS", v) ∈ attrsItems obj.attrs → ∀ s, v ≠ PyVal.bytes s) :
    is_dimscale (attrsItems obj.attrs) = false ∧
    objinfo g obj = datasetVariable g obj tid ∧
    countTag (objinfo g obj).1 "dimension" = countTag g "dimension" := by
  have hds : is_dimscale (attrsItems obj.attrs) = false := by
    cases hb : is_dimscale (attrsItems obj.attrs) with
    | false => rfl
    | true =>
        have hmem := (is_dimscale_eq_true_iff _).mp hb
        exact absurd rfl (hcls _ hmem "DIMENSION_SCALE")
  have hvar : objinfo g obj = datasetVariable g obj tid := by
    unfold objinfo
    rw [hk]
    simp [hds]
  refine ⟨hds, hvar, ?_⟩
  rw [hvar]
  exact countTag_datasetVariable g obj tid "dimension" (by decide) (by decide)

/-- Witness for C10: the dataset whose `CLASS` value is the text string
`DIMENSION_SCALE` is not a dimension scale and goes down the `<variable>`
path. -/
theorem claim_C10_text_class_not_dimscale_wit :
    is_dimscale (attrsItems exStrClassObj.attrs) = false ∧
    objinfo exGlob0 exStrClassObj =
      datasetVariable exGlob0 exStrClassObj ⟨.integer, 4, .sgn2⟩ ∧
    countTag (objinfo exGlob0 exStrClassObj).1 "dimension" =
      countTag exGlob0 "dimension" :=
  claim_C10_text_class_not_dimscale exGlob0 exStrClassObj ⟨.integer, 4, .sgn2⟩
    rfl (by
      intro v hv
      simp [attrsItems, exStrClassObj] at hv
      subst hv
      intro s h
      exact PyVal.noConfusion h)

/-- The suppression invariant is preserved by the root-attribute and
traversal stages of a conversion. -/
theorem goodGlob_convTail (g1 : Glob) (root : Nat)
    (attrs : List (String × H5Attr)) (objs : List H5Object)
    (h : goodGlob g1 = true) :
    goodGlob (convTail g1 root attrs objs).glob = true := by
  unfold convTail
  cases hda : do_attributes g1 root attrs with
  | mk g2 r =>
      have hg2 : goodGlob g2 = true := by
        have := goodGlob_do_attributes g1 root attrs h
        rw [hda] at this
        exact this
      cases r with
      | some err => simpa using hg2
      | none =>
          simp only []
          cases hvw : visititems g2 objs with
          | mk g3 r3 =>
              have hg3 : goodGlob g3 = true := by
                have := goodGlob_visititems g2 objs hg2
                rw [hvw] at this
                exact this
              cases r3 with
              | some err => simpa using hg3
              | none => simpa using hg3

/-- Claim C7: the four internal bookkeeping attribute names (`CLASS`,
`REFERENCE_LIST`, `DIMENSION_LIST`, `NAME`) never appear as the `name` of
any `<attribute>` element: if every element of the arena respects the
suppression rule before a conversion, every element after it — in
particular every `<attribute>` element of the returned document — still
does, for any input file (the root's attributes included). -/
theorem claim_C7_internal_suppressed (g : Glob) (f : H5File)
    (h : goodGlob g = true) :
    goodGlob (h5toncml g f).glob = true := by
  unfold h5toncml
  exact goodGlob_convTail _ _ f.rootAttrs f.objects
    (goodGlob_newNode g "netcdf"
      [("xsi:schemaLocation", "http://www.unidata.ucar.edu/schemas/netcdf/ncml-2.2.xsd"),
       ("location", location_url f.fname)] h (by simp [goodNode]))

/-- Witness for C7: converting the example file from the pristine module
state keeps the suppression invariant. -/
theorem claim_C7_internal_suppressed_wit :
    goodGlob (h5toncml initGlob exFileOk).glob = true :=
  claim_C7_internal_suppressed initGlob exFileOk rfl

/-- A successful conversion tail means both the root-attribute stage and
the traversal returned without exception, and the final global state is
the traversal's. -/
theorem convTail_ok_destruct (g1 : Glob) (root : Nat)
    (attrs : List (String × H5Attr)) (objs : List H5Object) (r : Nat)
    (h : (convTail g1 root attrs objs).result = .ok r) :
    (do_attributes g1 root attrs).2 = none ∧
    (visititems (do_attributes g1 root attrs).1 objs).2 = none ∧
    (convTail g1 root attrs objs).glob =
      (visititems (do_attributes g1 root attrs).1 objs).1 := by
  unfold convTail at h ⊢
  split at h
  next g2 e heq => simp at h
  next g2 heq =>
    split at h
    next g3 e heq2 => simp at h
    next g3 heq2 =>
      rw [heq]
      dsimp only
      rw [heq2]
      dsimp only
      exact ⟨rfl, rfl, rfl⟩

/-- If the root-attribute stage succeeds but the traversal raises, the
conversion tail propagates that exception — and `f.close()` is skipped. -/
theorem convTail_err_of_visit (g1 : Glob) (root : Nat)
    (attrs : List (String × H5Attr)) (objs : List H5Object) (e : PyErr)
    (hda : (do_attributes g1 root attrs).2 = none)
    (hv : (visititems (do_attributes g1 root attrs).1 objs).2 = some e) :
    (convTail g1 root attrs objs).result = .error e ∧
    (convTail g1 root attrs objs).fileClosed = false := by
  unfold convTail
  cases hex : do_attributes g1 root attrs with
  | mk g2 r2 =>
      rw [hex] at hda hv
      simp only [] at hda hv
      subst hda
      simp only []
      cases hvw : visititems g2 objs with
      | mk g3 r3 =>
          rw [hvw] at hv
          simp only [] at hv
          subst hv
          exact ⟨rfl, rfl⟩

/-- After a successful conversion, re-running the conversion on a state
whose `grp_node` still holds the successful run's registrations (with only
the root entry overwritten) fails as soon as the traversal reaches a group,
because every group path is already registered. -/
theorem convTail_second_run_fails (gA gB : Glob) (rootA rootB : Nat)
    (attrs : List (String × H5Attr)) (objs : List H5Object) (r : Nat)
    (obj : H5Object)
    (h1 : (convTail gA rootA attrs objs).result = .ok r)
    (hGB : gB.grp_node =
      dictSet (convTail gA rootA attrs objs).glob.grp_node "/" rootB)
    (hmem : obj ∈ objs) (hk : obj.kind = .group) :
    ∃ e, (convTail gB rootB attrs objs).result = .error e := by
  obtain ⟨hda1, hv1, hglob⟩ := convTail_ok_destruct gA rootA attrs objs r h1
  have hv1' : visititems (do_attributes gA rootA attrs).1 objs =
      ((visititems (do_attributes gA rootA attrs).1 objs).1, none) :=
    Prod.ext rfl hv1
  have hp3 : hasPath (visititems (do_attributes gA rootA attrs).1 objs).1
      obj.path = true :=
    visititems_group_paths objs _ _ hv1' obj hmem hk
  have hpB : hasPath gB obj.path = true := by
    unfold hasPath
    rw [hGB, hglob, dictGet_dictSet]
    by_cases hroot : obj.path = "/"
    · simp [hroot]
    · simp only [hroot, if_false]
      unfold hasPath at hp3
      exact hp3
  have hda2 : (do_attributes gB rootB attrs).2 = none := by
    rw [snd_do_attributes gB gA rootB rootA]
    exact hda1
  have hpB2 : hasPath (do_attributes gB rootB attrs).1 obj.path = true := by
    unfold hasPath
    rw [grp_node_do_attributes]
    exact hpB
  obtain ⟨e, he⟩ := visititems_dup_group_fails objs
    (do_attributes gB rootB attrs).1 obj hmem hk hpB2
  exact ⟨e, (convTail_err_of_visit gB rootB attrs objs e hda2 he).1⟩

/-- Counterexample to C4 as stated: converting the file containing the
single group `/g` succeeds, but converting the very same file a second
time in the same process does not behave identically — it aborts with
`RuntimeError`, because the module-level `grp_node` dictionary still holds
the `/g` entry registered by the first conversion. -/
theorem claim_C4_fresh_state_cex :
    (h5toncml initGlob exFileGrp).result = .ok 0 ∧
    (h5toncml (h5toncml initGlob exFileGrp).glob exFileGrp).result =
      .error (.runtimeError "/g: XML node already exists") :=
  ⟨rfl, rfl⟩

/-- Claim C4 (amended): the XML tree is created fresh per conversion call,
but the path-to-node mapping table is a module-level global that persists
across calls and only its root entry is overwritten; consequently a second
conversion call is affected by the first — after any successful
conversion of a file containing at least one group, converting the same
file again in the same process aborts with an error instead of behaving
identically. -/
theorem claim_C4_global_mapping_amended (g : Glob) (f : H5File) (r : Nat)
    (obj : H5Object) (h1 : (h5toncml g f).result = .ok r)
    (hmem : obj ∈ f.objects) (hk : obj.kind = .group) :
    ∃ e, (h5toncml (h5toncml g f).glob f).result = .error e := by
  unfold h5toncml at h1 ⊢
  simp only [] at h1 ⊢
  exact convTail_second_run_fails _ _ _ _ f.rootAttrs f.objects r obj h1 rfl
    hmem hk

/-- Witness for the amended C4: the group file converts once with result
`ok`, and the theorem yields the failure of the second run. -/
theorem claim_C4_global_mapping_amended_wit :
    ∃ e, (h5toncml (h5toncml initGlob exFileGrp).glob exFileGrp).result =
      .error e :=
  claim_C4_global_mapping_amended initGlob exFileGrp 0
    ⟨"/g", "/", [], [], .group⟩ rfl (List.mem_singleton.mpr rfl) rfl

/-- Claim C3 evaluated on a failing input: traversing a file whose only
dataset has the unsupported `H5T_TIME` element type aborts the conversion
with the translation error and no document is returned, but the
`f.close()` on line 211 is never executed — the file handle is not
released on this exit path, while a fully successful conversion does close
it.  This contradicts the claim that the handle is released on every exit
path. -/
theorem claim_C3_handle_leak :
    (h5toncml initGlob exFileTime).result =
      .error (.typeError "H5T_TIME datatype not supported in NcML") ∧
    (h5toncml initGlob exFileTime).fileClosed = false ∧
    (h5toncml initGlob exFileOk).fileClosed = true :=
  ⟨rfl, rfl, rfl⟩

/-- On the `<variable>` path, a datatype translating to an unsigned type
produces a variable element whose first child is the synthetic
`_Unsigned` attribute element, and nothing appended later displaces it. -/
theorem datasetVariable_unsigned_first_child (g g' : Glob) (obj : H5Object)
    (tid : TypeID) (t : String)
    (huns : ncml_dtype tid = .ok (t, true))
    (hrun : datasetVariable g obj tid = (g', none)) :
    ∃ (vid aid : Nat) (ndv nda : XNode),
      g'.arena[vid]? = some ndv ∧ ndv.tag = "variable" ∧
      ndv.attribs.head? = some ("name", pp_basename obj.path) ∧
      ndv.children.head? = some aid ∧
      g'.arena[aid]? = some nda ∧ nda.tag = "attribute" ∧
      nda.attribs = [("name", "_Unsigned"), ("value", "true")] := by
  unfold datasetVariable at hrun
  rw [huns] at hrun
  dsimp only at hrun
  cases hsh : datasetShape obj with
  | error e => rw [hsh] at hrun; simp at hrun
  | ok shape =>
      rw [hsh] at hrun
      simp only [if_true] at hrun
      -- name the three construction steps
      refine ⟨g.arena.length, g.arena.length + 1, ?_⟩
      have hq1 : ((newNode (newNode g "variable"
          [("name", pp_basename obj.path), ("type", t),
           ("shape", joinSpace shape)]).1 "attribute"
          [("name", "_Unsigned"), ("value", "true")]).1).arena =
          (g.arena ++ [⟨"variable",
            [("name", pp_basename obj.path), ("type", t),
             ("shape", joinSpace shape)], []⟩]) ++
          [⟨"attribute", [("name", "_Unsigned"), ("value", "true")], []⟩] := by
        simp [newNode]
      have hvar : ((newNode (newNode g "variable"
          [("name", pp_basename obj.path), ("type", t),
           ("shape", joinSpace shape)]).1 "attribute"
          [("name", "_Unsigned"), ("value", "true")]).1).arena[g.arena.length]? =
          some ⟨"variable",
            [("name", pp_basename obj.path), ("type", t),
             ("shape", joinSpace shape)], []⟩ := by
        rw [hq1]
        rw [List.getElem?_append_left (by simp)]
        exact List.getElem?_concat_length _ _
      have hattr : ((newNode (newNode g "variable"
          [("name", pp_basename obj.path), ("type", t),
           ("shape", joinSpace shape)]).1 "attribute"
          [("name", "_Unsigned"), ("value", "true")]).1).arena[g.arena.length + 1]? =
          some ⟨"attribute", [("name", "_Unsigned"), ("value", "true")], []⟩ := by
        rw [hq1]
        have : g.arena.length + 1 = (g.arena ++ [(⟨"variable",
            [("name", pp_basename obj.path), ("type", t),
             ("shape", joinSpace shape)], []⟩ : XNode)]).length := by simp
        rw [this]
        exact List.getElem?_concat_length _ _
      -- the state after appending the _Unsigned child to the variable node
      have hg3var : (appendChild (newNode (newNode g "variable"
          [("name", pp_basename obj.path), ("type", t),
           ("shape", joinSpace shape)]).1 "attribute"
          [("name", "_Unsigned"), ("value", "true")]).1
          (newNode g "variable"
            [("name", pp_basename obj.path), ("type", t),
             ("shape", joinSpace shape)]).2
          (newNode (newNode g "variable"
            [("name", pp_basename obj.path), ("type", t),
             ("shape", joinSpace shape)]).1 "attribute"
            [("name", "_Unsigned"), ("value", "true")]).2).arena[g.arena.length]? =
          some ⟨"variable",
            [("name", pp_basename obj.path), ("type", t),
             ("shape", joinSpace shape)], [g.arena.length + 1]⟩ := by
        unfold appendChild
        have hp2 : (newNode g "variable"
            [("name", pp_basename obj.path), ("type", t),
             ("shape", joinSpace shape)]).2 = g.arena.length := rfl
        rw [hp2, hvar]
        dsimp only
        have hlt : g.arena.length < ((newNode (newNode g "variable"
            [("name", pp_basename obj.path), ("type", t),
             ("shape", joinSpace shape)]).1 "attribute"
            [("name", "_Unsigned"), ("value", "true")]).1).arena.length := by
          rw [hq1]; simp
        simp only [List.getElem?_set_self', List.getElem?_eq_getElem hlt,
          Option.map_some]
        simp [newNode]
      have hg3attr : (appendChild (newNode (newNode g "variable"
          [("name", pp_basename obj.path), ("type", t),
           ("shape", joinSpace shape)]).1 "attribute"
          [("name", "_Unsigned"), ("value", "true")]).1
          (newNode g "variable"
            [("name", pp_basename obj.path), ("type", t),
             ("shape", joinSpace shape)]).2
          (newNode (newNode g "variable"
            [("name", pp_basename obj.path), ("type", t),
             ("shape", joinSpace shape)]).1 "attribute"
            [("name", "_Unsigned"), ("value", "true")]).2).arena[g.arena.length + 1]? =
          some ⟨"attribute", [("name", "_Unsigned"), ("value", "true")], []⟩ := by
        unfold appendChild
        have hp2 : (newNode g "variable"
            [("name", pp_basename obj.path), ("type", t),
             ("shape", joinSpace shape)]).2 = g.arena.length := rfl
        rw [hp2, hvar]
        dsimp only
        rw [List.getElem?_set_ne (by omega)]
        exact hattr
      -- the extension property through finishObj
      have hext : ExtendsG (appendChild (newNode (newNode g "variable"
          [("name", pp_basename obj.path), ("type", t),
           ("shape", joinSpace shape)]).1 "attribute"
          [("name", "_Unsigned"), ("value", "true")]).1
          (newNode g "variable"
            [("name", pp_basename obj.path), ("type", t),
             ("shape", joinSpace shape)]).2
          (newNode (newNode g "variable"
            [("name", pp_basename obj.path), ("type", t),
             ("shape", joinSpace shape)]).1 "attribute"
            [("name", "_Unsigned"), ("value", "true")]).2) g' := by
        have := extendsG_finishObj (appendChild (newNode (newNode g "variable"
          [("name", pp_basename obj.path), ("type", t),
           ("shape", joinSpace shape)]).1 "attribute"
          [("name", "_Unsigned"), ("value", "true")]).1
          (newNode g "variable"
            [("name", pp_basename obj.path), ("type", t),
             ("shape", joinSpace shape)]).2
          (newNode (newNode g "variable"
            [("name", pp_basename obj.path), ("type", t),
             ("shape", joinSpace shape)]).1 "attribute"
            [("name", "_Unsigned"), ("value", "true")]).2)
          (newNode g "variable"
            [("name", pp_basename obj.path), ("type", t),
             ("shape", joinSpace shape)]).2 obj
        rw [hrun] at this
        exact this
      obtain ⟨ndv, hndv, htag, hattribs, ext, hch⟩ :=
        hext g.arena.length _ hg3var
      obtain ⟨nda, hnda, htag2, hattribs2, ext2, hch2⟩ :=
        hext (g.arena.length + 1) _ hg3attr
      refine ⟨ndv, nda, hndv, htag, ?_, ?_, hnda, htag2, hattribs2⟩
      · rw [hattribs]
        rfl
      · rw [hch]
        rfl

/-- Claim C8: for a dataset whose element type translates to an unsigned
NcML type (an unsigned integer of any mapped size, 8 bytes included), the
emitted `<variable>` element's first child is the synthetic
`<attribute name="_Unsigned" value="true"/>` element, created before any
user attribute is serialized and never displaced by them. -/
theorem claim_C8_unsigned_first_child (g g' : Glob) (obj : H5Object)
    (tid : TypeID) (t : String)
    (hk : obj.kind = .dataset tid)
    (huns : ncml_dtype tid = .ok (t, true))
    (hnm : ¬ (is_dimscale (attrsItems obj.attrs) = true ∧
        pyStartswith (attrsGet obj.attrs "NAME" (.bytes "")) ncdim_marker =
          .ok true))
    (hrun : objinfo g obj = (g', none)) :
    ∃ (vid aid : Nat) (ndv nda : XNode),
      g'.arena[vid]? = some ndv ∧ ndv.tag = "variable" ∧
      ndv.attribs.head? = some ("name", pp_basename obj.path) ∧
      ndv.children.head? = some aid ∧
      g'.arena[aid]? = some nda ∧ nda.tag = "attribute" ∧
      nda.attribs = [("name", "_Unsigned"), ("value", "true")] := by
  unfold objinfo at hrun
  rw [hk] at hrun
  by_cases hds : is_dimscale (attrsItems obj.attrs)
  · simp only [hds, if_true] at hrun
    cases hshape : shapeHead obj.shape with
    | error e => rw [hshape] at hrun; simp at hrun
    | ok d0 =>
        rw [hshape] at hrun
        dsimp only at hrun
        cases hlk : lookupNode (newNode g "dimension"
            [("name", pp_basename obj.path), ("length", toString d0)]).1
            obj.parentPath with
        | error e => rw [hlk] at hrun; simp at hrun
        | ok parent =>
            rw [hlk] at hrun
            dsimp only at hrun
            cases hsw : pyStartswith (attrsGet obj.attrs "NAME" (.bytes ""))
                ncdim_marker with
            | error e => rw [hsw] at hrun; simp at hrun
            | ok b =>
                rw [hsw] at hrun
                cases b with
                | true => exact absurd ⟨hds, hsw⟩ hnm
                | false =>
                    dsimp only at hrun
                    exact datasetVariable_unsigned_first_child _ _ _ _ _
                      huns hrun
  · have hds' : is_dimscale (attrsItems obj.attrs) = false := by
      simpa using hds
    simp only [hds', Bool.false_eq_true, if_false] at hrun
    exact datasetVariable_unsigned_first_child _ _ _ _ _ huns hrun

/-- Witness for C8: the 8-byte unsigned dataset `counts` yields a variable
whose first child is the `_Unsigned` attribute. -/
theorem claim_C8_unsigned_first_child_wit :
    ∃ (vid aid : Nat) (ndv nda : XNode),
      ((objinfo exGlob0 exUnsignedObj).1).arena[vid]? = some ndv ∧
      ndv.tag = "variable" ∧
      ndv.attribs.head? = some ("name", pp_basename exUnsignedObj.path) ∧
      ndv.children.head? = some aid ∧
      ((objinfo exGlob0 exUnsignedObj).1).arena[aid]? = some nda ∧
      nda.tag = "attribute" ∧
      nda.attribs = [("name", "_Unsigned"), ("value", "true")] :=
  claim_C8_unsigned_first_child exGlob0 (objinfo exGlob0 exUnsignedObj).1
    exUnsignedObj ⟨.integer, 8, .sgnNone⟩ "long" rfl rfl
    (fun hc => absurd hc.1 (by decide))
    (Prod.ext rfl rfl)

end H5Ncml
